import Mathlib

/-!
Shallow embedding of the dialogue-controller core of the repository
(src/lambda/functions/bedrock_client.py and
src/lambda/functions/process_answer.py).

Modelling conventions:
* Python dicts with string keys (the question→answer history) are ordered
  association lists `List (String × String)`; Python sets of strings are
  `Finset String` (for coverage) or deduplicated lists (for keyword sets).
* The external text generator (Bedrock `invoke_model`) is a fallible
  collaborator: each call site takes its outcome as an explicit argument,
  `none` standing for a raised exception / failed call and `some t` for the
  text it returned.  JSON extraction + parsing of the stakeholder response is
  likewise represented by its outcome (`none` = no parseable object,
  `some parsed` = the parsed stakeholder entries).
* Python float arithmetic in the progress estimate and the keyword-overlap
  ratio is embedded exactly (`Nat` floor division, `ℚ` comparison): for the
  small integer operands the code produces, the float results agree with the
  exact ones.
-/

/-- `pat` matches `cs` position by position at its start. -/
def leading_match : List Char → List Char → Bool
  | [], _ => true
  | _ :: _, [] => false
  | p :: ps, c :: cs => p == c && leading_match ps cs

/-- `pat` occurs somewhere in `cs` (the empty pattern occurs everywhere). -/
def contains_chars (pat : List Char) : List Char → Bool
  | [] => pat.isEmpty
  | c :: cs => leading_match pat (c :: cs) || contains_chars pat cs

/-- Python's substring test `pat in s`, computed over the character lists
(structural recursion, so concrete instances evaluate in the kernel). -/
def str_contains (s pat : String) : Bool :=
  contains_chars pat.data s.data

/-- Python `str.lower()` (the source's texts are lowercased before matching);
ASCII letters are mapped, as `Char.toLower` does. -/
def to_lower (s : String) : String :=
  ⟨s.data.map Char.toLower⟩

/-- Python `str.upper()` for the handler's sentinel comparison. -/
def to_upper (s : String) : String :=
  ⟨s.data.map Char.toUpper⟩

/-- Python `str.strip()`: drop leading and trailing whitespace. -/
def strip_str (s : String) : String :=
  ⟨((s.data.dropWhile Char.isWhitespace).reverse.dropWhile Char.isWhitespace).reverse⟩

/-- Python `" ".join(xs)` (and `String.intercalate` in general form). -/
def join_with (sep : String) : List String → String
  | [] => ""
  | [x] => x
  | x :: xs => x ++ sep ++ join_with sep xs

/-- The stopword list of `BedrockClient._is_question_repetitive`
(bedrock_client.py line 126). -/
def repetition_stopwords : List String :=
  ["para", "esta", "como", "qual", "onde", "quando"]

/-- One splitting pass for Python `str.split()`: cut at every separator
character (runs of separators leave empty pieces, filtered out below). -/
def split_chars (p : Char → Bool) : List Char → List (List Char)
  | [] => [[]]
  | c :: cs =>
      match split_chars p cs with
      | [] => [[]]
      | w :: ws => if p c then [] :: w :: ws else (c :: w) :: ws

/-- Python `str.split()`: split on whitespace, dropping empty pieces. -/
def split_whitespace (s : String) : List String :=
  ((split_chars Char.isWhitespace s.data).map (fun w => String.mk w)).filter
    (fun w => w != "")

/-- The keyword set a question contributes in
`BedrockClient._is_question_repetitive` (bedrock_client.py lines 125-126 and
132-133): lowercase words of length > 3 that are not stopwords.  The Python
`set` is modelled as a deduplicated list, so `.length` is the set's size. -/
def keywords_of (question : String) : List String :=
  ((split_whitespace (to_lower question)).filter
    (fun w => decide (w.length > 3) && !(repetition_stopwords.contains w))).dedup

/-- The size of the intersection of two keyword sets (both deduplicated). -/
def keyword_overlap (a b : List String) : Nat :=
  (a.filter (fun w => b.contains w)).length

/-- `overlap / min(|a|, |b|) > 0.5` of bedrock_client.py lines 137-141,
with the float ratio embedded as the exact rational comparison. -/
def overlap_exceeds_half (a b : List String) : Bool :=
  decide ((keyword_overlap a b : ℚ) / (Nat.min a.length b.length : ℚ) > 1 / 2)

/-- `BedrockClient._is_question_repetitive` (bedrock_client.py lines 120-145):
scan the prior questions (the history's keys); flag repetitive as soon as one
prior question has a non-empty keyword set, the candidate's keyword set is
non-empty, and the overlap ratio exceeds one half. -/
def is_question_repetitive (new_question : String)
    (previous_answers : List (String × String)) : Bool :=
  let new_keywords := keywords_of new_question
  previous_answers.any fun p =>
    let prev_keywords := keywords_of p.1
    decide (new_keywords.length > 0) && decide (prev_keywords.length > 0) &&
      overlap_exceeds_half new_keywords prev_keywords

/-- Trigger words for the `business` category (bedrock_client.py line 30). -/
def business_words : List String :=
  ["negócio", "objetivo", "problema", "cliente", "receita", "benefício", "impacto"]

/-- Trigger words for the `technical` category (bedrock_client.py line 32). -/
def technical_words : List String :=
  ["técnico", "integração", "sistema", "api", "backend", "internet banking", "pix"]

/-- Trigger words for the `compliance` category (bedrock_client.py line 34). -/
def compliance_words : List String :=
  ["compliance", "bacen", "regulament", "audit", "legal", "segurança"]

/-- Trigger words for the `ux` category (bedrock_client.py line 36). -/
def ux_words : List String :=
  ["ux", "tela", "fluxo", "usuário", "interface", "experiência"]

/-- Trigger words for the `operational` category (bedrock_client.py line 38). -/
def operational_words : List String :=
  ["operacion", "suporte", "monitor", "erro", "rollback"]

/-- The categories one question→answer pair contributes
(bedrock_client.py lines 28-39): lowercase the concatenation
`question ++ " " ++ answer` and add each category whose trigger-word list has
a substring match. -/
def classify_pair (question answer : String) : Finset String :=
  let qa := to_lower (question ++ " " ++ answer)
  (if business_words.any (str_contains qa) then {"business"} else ∅) ∪
  (if technical_words.any (str_contains qa) then {"technical"} else ∅) ∪
  (if compliance_words.any (str_contains qa) then {"compliance"} else ∅) ∪
  (if ux_words.any (str_contains qa) then {"ux"} else ∅) ∪
  (if operational_words.any (str_contains qa) then {"operational"} else ∅)

/-- The coverage set `answered_categories` of
`BedrockClient.ask_specification_question` (bedrock_client.py lines 21-39):
fold over the history in order, unioning each pair's categories. -/
def answered_categories (previous_answers : List (String × String)) : Finset String :=
  previous_answers.foldl (fun acc p => acc ∪ classify_pair p.1 p.2) ∅

/-- The fixed five-category set of the data model. -/
def five_categories : Finset String :=
  {"business", "technical", "compliance", "ux", "operational"}

/-- Focus string returned for turn 0 (bedrock_client.py line 104). -/
def focus_business_open : String :=
  "OBJETIVO DE NEGÓCIO: Como esta feature beneficia as casas de apostas (nossos clientes)?"

/-- Focus string for turn 1 with `business` uncovered (bedrock_client.py line 107). -/
def focus_business_value : String :=
  "VALOR PARA OKTO: Qual o impacto esperado em receita, retenção ou operação?"

/-- Focus string for the `technical` slot (bedrock_client.py line 110). -/
def focus_technical : String :=
  "ASPECTOS TÉCNICOS: Quais sistemas OKTO precisam alteração? (PIX Backend, Internet Banking, etc.)"

/-- Focus string for the `compliance` slot (bedrock_client.py line 113). -/
def focus_compliance : String :=
  "COMPLIANCE E SEGURANÇA: Há aspectos regulatórios do BACEN ou requisitos de segurança?"

/-- Focus string for the `ux` slot (bedrock_client.py line 116). -/
def focus_ux : String :=
  "EXPERIÊNCIA DO USUÁRIO: Como funcionará para diferentes roles (admin/assistant/operador)?"

/-- Closing catch-all focus string (bedrock_client.py line 118). -/
def focus_operational : String :=
  "ASPECTOS FINAIS: Há requisitos específicos não mencionados ou dependências críticas?"

/-- `BedrockClient._get_next_category_focus` (bedrock_client.py lines 100-118):
sequential early-return checks, first match wins. -/
def get_next_category_focus (answered : Finset String) (total_questions : Nat) : String :=
  if total_questions = 0 then focus_business_open
  else if total_questions = 1 ∧ "business" ∉ answered then focus_business_value
  else if total_questions ≤ 2 ∧ "technical" ∉ answered then focus_technical
  else if total_questions ≤ 3 ∧ "compliance" ∉ answered then focus_compliance
  else if total_questions ≤ 4 ∧ "ux" ∉ answered then focus_ux
  else focus_operational

/-- The planner's decision: continue with a focus hint, or complete. -/
inductive PlannerDecision where
  | complete
  | continueWith (focus_hint : String)
deriving DecidableEq, Repr

/-- The planning decision embedded in `ask_specification_question`
(bedrock_client.py lines 42-48): the hard five-question cap, else the
schedule's focus, abstracted over the coverage set and turn count (the spec's
`QuestionPlanner.plan`). -/
def plan_question (answered : Finset String) (total_questions : Nat) : PlannerDecision :=
  if 5 ≤ total_questions then PlannerDecision.complete
  else PlannerDecision.continueWith (get_next_category_focus answered total_questions)

/-- `BedrockClient.ask_specification_question` (bedrock_client.py lines 14-98)
with the external generator call's outcome passed in (`gen_result = none`
models the call raising, which the blanket `except` of lines 96-98 turns into
the completion sentinel).  With 5 or more answered pairs the sentinel is
returned before any call is made; otherwise the generated text is stripped,
checked by the repetition guard, and either forwarded or replaced by the
sentinel. -/
def ask_specification_question (previous_answers : List (String × String))
    (gen_result : Option String) : String :=
  let total_questions := previous_answers.length
  if 5 ≤ total_questions then "ESPECIFICACAO_COMPLETA"
  else
    match gen_result with
    | none => "ESPECIFICACAO_COMPLETA"
    | some text =>
        let question := strip_str text
        if is_question_repetitive question previous_answers then "ESPECIFICACAO_COMPLETA"
        else question

/-- One stakeholder entry as the source handles it (the JSON object fields of
bedrock_client.py lines 183-190 and 243-283). -/
structure Stakeholder where
  area : String
  reason : String
  priority : String
  validation_focus : String
deriving DecidableEq, Repr

/-- The valid-area enumeration of `identify_stakeholders`
(bedrock_client.py line 216). -/
def valid_areas : List String :=
  ["PIX Backend", "Internet Banking", "Compliance", "Financeiro", "Suporte", "TMS", "Produto"]

/-- The Internet Banking entry of `_get_fallback_stakeholders`
(bedrock_client.py lines 243-248). -/
def internet_banking_fallback : Stakeholder :=
  { area := "Internet Banking"
    reason := "Alterações na interface e autenticação do usuário"
    priority := "high"
    validation_focus := "UX, integração com reconhecimento facial e impacto nas roles" }

/-- The PIX Backend entry of `_get_fallback_stakeholders`
(bedrock_client.py lines 252-257). -/
def pix_backend_fallback : Stakeholder :=
  { area := "PIX Backend"
    reason := "Alterações em funcionalidades de pagamento"
    priority := "high"
    validation_focus := "Impacto nas APIs e processamento" }

/-- The Compliance entry of `_get_fallback_stakeholders`
(bedrock_client.py lines 261-266). -/
def compliance_fallback : Stakeholder :=
  { area := "Compliance"
    reason := "Validação de aspectos de segurança e conformidade"
    priority := "high"
    validation_focus := "Segurança biométrica e regulamentações" }

/-- The TMS entry of `_get_fallback_stakeholders`
(bedrock_client.py lines 270-275). -/
def tms_fallback : Stakeholder :=
  { area := "TMS"
    reason := "Monitoramento e infraestrutura da nova funcionalidade"
    priority := "medium"
    validation_focus := "Logs, alertas e monitoramento" }

/-- The unconditionally appended Suporte entry of `_get_fallback_stakeholders`
(bedrock_client.py lines 278-283). -/
def suporte_fallback : Stakeholder :=
  { area := "Suporte"
    reason := "Atendimento e documentação da nova funcionalidade"
    priority := "medium"
    validation_focus := "Processos de suporte e troubleshooting" }

/-- `BedrockClient._get_fallback_stakeholders` (bedrock_client.py
lines 236-285): keyword-triggered entries over the lowercased context, with
the Suporte entry always appended last. -/
def get_fallback_stakeholders (feature_context : String) : List Stakeholder :=
  let ctx := to_lower feature_context
  (if ["internet banking", "login", "facial", "autenticação", "interface", "tela"].any
      (str_contains ctx) then [internet_banking_fallback] else []) ++
  (if ["pix", "pagamento", "transação", "api"].any (str_contains ctx)
    then [pix_backend_fallback] else []) ++
  (if ["segurança", "facial", "autenticação", "biometria"].any (str_contains ctx)
    then [compliance_fallback] else []) ++
  (if ["monitoramento", "log", "infraestrutura"].any (str_contains ctx)
    then [tms_fallback] else []) ++
  [suporte_fallback]

/-- The `feature_context` of `identify_stakeholders` (bedrock_client.py
lines 153-154): the initial idea, a space, then the history's answer values
joined with spaces. -/
def feature_context (initial_idea : String) (questions_answers : List (String × String)) : String :=
  initial_idea ++ " " ++ join_with " " (questions_answers.map Prod.snd)

/-- `BedrockClient.identify_stakeholders` (bedrock_client.py lines 147-234)
with the external call and the JSON-span parse represented by their outcome:
* `none` — the call itself raised: the outer `except` (lines 232-234) returns
  the fallback computed over the empty string;
* `some none` — the call returned text but no JSON object could be parsed
  from it (no brace span, or `json.loads` raised): control falls through to
  the fallback over the feature context (line 230);
* `some (some parsed)` — a JSON object was parsed and `parsed` is its
  `stakeholders` list (empty when the key is missing): the entries are
  filtered by the valid-area enumeration and returned as they are, even when
  none survives (lines 214-224). -/
def identify_stakeholders (call_result : Option (Option (List Stakeholder)))
    (ctx : String) : List Stakeholder :=
  match call_result with
  | none => get_fallback_stakeholders ""
  | some none => get_fallback_stakeholders ctx
  | some (some parsed) => parsed.filter (fun s => valid_areas.contains s.area)

/-- The fixed marker standing for the error document
`generate_final_document` formats when its generator call raises
(bedrock_client.py lines 383-385; the real text also renders the exception). -/
def doc_error_fallback : String :=
  "# Erro ao Gerar Documento"

/-- `BedrockClient.generate_final_document` (bedrock_client.py lines 287-385)
with the generator call's outcome passed in: the document text on success,
the error document when the call raises.  It never itself raises. -/
def generate_final_document (doc_result : Option String) : String :=
  match doc_result with
  | some document => document
  | none => doc_error_fallback

/-- The complaint-phrase list of process_answer.py line 82. -/
def complaint_phrases : List String :=
  ["já fez essa pergunta", "vc já fez", "você já perguntou", "pergunta repetida"]

/-- The repetition-complaint test of process_answer.py line 82: some phrase
occurs in the lowercased (already stripped) answer. -/
def complaint_detected (answer : String) : Bool :=
  complaint_phrases.any (fun phrase => str_contains (to_lower answer) phrase)

/-- Python dict upsert `updated_answers[current_question] = answer`
(process_answer.py lines 132-133) on the ordered association list: an existing
key keeps its position and gets the new value; a fresh key is appended. -/
def upsert (previous_answers : List (String × String)) (k v : String) :
    List (String × String) :=
  if previous_answers.any (fun p => p.1 == k) then
    previous_answers.map (fun p => if p.1 == k then (k, v) else p)
  else previous_answers ++ [(k, v)]

/-- The request fields `process_answer.lambda_handler` extracts
(process_answer.py lines 54-59); a missing field is the empty string. -/
structure TurnRequest where
  spec_id : String
  current_question : String
  answer : String
  previous_answers : List (String × String)
  initial_idea : String
  title : String
deriving DecidableEq, Repr

/-- The response shapes `process_answer.lambda_handler` emits: the
validation-error envelope of `create_error_response`, the completed envelope
(its `total_questions`, `all_answers`, `stakeholders` and `final_document`
fields), or the in-progress envelope (its `next_question`, `question_number`,
`previous_answers` and `progress` fields). -/
inductive TurnResponse where
  | error (message : String)
  | completed (total_questions : Nat) (all_answers : List (String × String))
      (stakeholders : List Stakeholder) (final_document : String)
  | inProgress (next_question : String) (question_number : Nat)
      (previous_answers : List (String × String))
      (progress_current progress_estimated_total progress_percentage : Nat)
deriving DecidableEq, Repr

/-- The HTTP status code of each response: `create_error_response` always
builds a 400 (process_answer.py lines 241-249), every other envelope a 200. -/
def status_code : TurnResponse → Nat
  | TurnResponse.error _ => 400
  | _ => 200

/-- `process_answer.lambda_handler` (process_answer.py lines 17-239) past the
body parsing, with the three external-generator outcomes passed in:
`gen_result` for the question-generation call inside
`ask_specification_question`, `stakeholder_call` for the stakeholder
identification (see `identify_stakeholders`), `doc_result` for the document
generation.  Client construction and timestamping are not modelled.  Order of
business: the four validations (lines 65-79), the complaint short-circuit to
the completed envelope over the *unchanged* history (lines 81-129), else
upsert the answer (lines 131-133), ask for the next question, and emit the
completed or in-progress envelope (lines 157-234). -/
def process_answer (req : TurnRequest) (gen_result : Option String)
    (stakeholder_call : Option (Option (List Stakeholder)))
    (doc_result : Option String) : TurnResponse :=
  let answer := strip_str req.answer
  if req.spec_id == "" then TurnResponse.error "Campo \"spec_id\" é obrigatório"
  else if req.current_question == "" then
    TurnResponse.error "Campo \"current_question\" é obrigatório"
  else if answer == "" then TurnResponse.error "Campo \"answer\" é obrigatório"
  else if answer.length < 5 then
    TurnResponse.error "A resposta deve ter pelo menos 5 caracteres"
  else if complaint_detected answer then
    TurnResponse.completed req.previous_answers.length req.previous_answers
      (identify_stakeholders stakeholder_call
        (feature_context req.initial_idea req.previous_answers))
      (generate_final_document doc_result)
  else
    let updated := upsert req.previous_answers req.current_question answer
    let next_question := ask_specification_question updated gen_result
    if to_upper next_question == "ESPECIFICACAO_COMPLETA" then
      TurnResponse.completed updated.length updated
        (identify_stakeholders stakeholder_call
          (feature_context req.initial_idea updated))
        (generate_final_document doc_result)
    else
      let estimated_total := Nat.max 5 (updated.length + 1)
      TurnResponse.inProgress next_question (updated.length + 1) updated
        updated.length estimated_total
        (Nat.min (updated.length * 100 / estimated_total) 95)

/-! ## Helper lemmas -/

lemma mem_foldl_union (l : List (String × String)) (acc : Finset String) (x : String) :
    x ∈ l.foldl (fun a p => a ∪ classify_pair p.1 p.2) acc ↔
      x ∈ acc ∨ ∃ p ∈ l, x ∈ classify_pair p.1 p.2 := by
  induction l generalizing acc with
  | nil => simp
  | cons hd tl ih =>
      simp only [List.foldl_cons, ih, Finset.mem_union, List.mem_cons]
      constructor
      · rintro ((hx | hx) | ⟨p, hp, hx⟩)
        · exact Or.inl hx
        · exact Or.inr ⟨hd, Or.inl rfl, hx⟩
        · exact Or.inr ⟨p, Or.inr hp, hx⟩
      · rintro (hx | ⟨p, rfl | hp, hx⟩)
        · exact Or.inl (Or.inl hx)
        · exact Or.inl (Or.inr hx)
        · exact Or.inr ⟨p, hp, hx⟩

lemma mem_answered_categories (l : List (String × String)) (x : String) :
    x ∈ answered_categories l ↔ ∃ p ∈ l, x ∈ classify_pair p.1 p.2 := by
  simp [answered_categories, mem_foldl_union]

lemma mem_ite_singleton {c : Prop} [Decidable c] {x s : String}
    (h : x ∈ if c then ({s} : Finset String) else ∅) : x = s := by
  split at h
  · exact Finset.mem_singleton.mp h
  · exact absurd h (Finset.not_mem_empty x)

lemma classify_pair_subset (q a : String) : classify_pair q a ⊆ five_categories := by
  intro x hx
  simp only [classify_pair, Finset.mem_union] at hx
  have hcases : x = "business" ∨ x = "technical" ∨ x = "compliance" ∨ x = "ux" ∨
      x = "operational" := by
    rcases hx with ((((h | h) | h) | h) | h)
    · exact Or.inl (mem_ite_singleton h)
    · exact Or.inr (Or.inl (mem_ite_singleton h))
    · exact Or.inr (Or.inr (Or.inl (mem_ite_singleton h)))
    · exact Or.inr (Or.inr (Or.inr (Or.inl (mem_ite_singleton h))))
    · exact Or.inr (Or.inr (Or.inr (Or.inr (mem_ite_singleton h))))
  rcases hcases with h | h | h | h | h <;> subst h <;> decide

lemma ratio_gt_half_iff (a b : List String) (ha : a ≠ []) (hb : b ≠ []) :
    ((keyword_overlap a b : ℚ) / (Nat.min a.length b.length : ℚ) > 1 / 2) ↔
      Nat.min a.length b.length < 2 * keyword_overlap a b := by
  have hm : 0 < Nat.min a.length b.length :=
    Nat.lt_min.mpr ⟨List.length_pos.mpr ha, List.length_pos.mpr hb⟩
  have hmq : (0 : ℚ) < (Nat.min a.length b.length : ℚ) := by exact_mod_cast hm
  rw [gt_iff_lt, lt_div_iff₀ hmq]
  constructor
  · intro h
    have h2 : (Nat.min a.length b.length : ℚ) < 2 * (keyword_overlap a b : ℚ) := by
      linarith
    exact_mod_cast h2
  · intro h
    have h2 : (Nat.min a.length b.length : ℚ) < 2 * (keyword_overlap a b : ℚ) := by
      exact_mod_cast h
    linarith

/-! ## Claims -/

/-- C1: the hard five-question cap.  Once the history holds at least five
answered pairs, `ask_specification_question` returns the completion sentinel,
and it does so independently of the external generator's outcome (no sixth
question is requested); at the planner level a turn count of exactly 5 decides
`complete` for every coverage set, while a count of 4 still yields a focus
hint. -/
theorem hard_cap_completes (pa : List (String × String)) (g g' : Option String)
    (cov : Finset String) (h : 5 ≤ pa.length) :
    ask_specification_question pa g = "ESPECIFICACAO_COMPLETA" ∧
    ask_specification_question pa g = ask_specification_question pa g' ∧
    plan_question cov 5 = PlannerDecision.complete ∧
    ∃ focus, plan_question cov 4 = PlannerDecision.continueWith focus := by
  refine ⟨?_, ?_, ?_, ?_⟩
  · simp [ask_specification_question, h]
  · simp [ask_specification_question, h]
  · simp [plan_question]
  · refine ⟨get_next_category_focus cov 4, ?_⟩
    simp [plan_question]

/-- Witness for C1 at a concrete five-pair history. -/
theorem hard_cap_completes_witness :
    ask_specification_question
        [("a", "b"), ("c", "d"), ("e", "f"), ("g", "h"), ("i", "j")]
        (some "Pergunta nova sobre monitoramento?") = "ESPECIFICACAO_COMPLETA" ∧
    ask_specification_question
        [("a", "b"), ("c", "d"), ("e", "f"), ("g", "h"), ("i", "j")]
        (some "Pergunta nova sobre monitoramento?") =
      ask_specification_question
        [("a", "b"), ("c", "d"), ("e", "f"), ("g", "h"), ("i", "j")] none ∧
    plan_question ∅ 5 = PlannerDecision.complete ∧
    ∃ focus, plan_question ∅ 4 = PlannerDecision.continueWith focus :=
  hard_cap_completes _ _ none ∅ (by decide)

/-- C2: below the cap the focus follows the fixed priority-ordered schedule,
first match wins: slot 0 opens on business; slot 1 revisits business when
uncovered; then technical (≤ 2), compliance (≤ 3) and ux (≤ 4) when uncovered;
otherwise the operational catch-all, whether or not `operational` is already
covered. -/
theorem planner_schedule (cov : Finset String) (tc : Nat) (htc : tc < 5) :
    (tc = 0 → get_next_category_focus cov tc = focus_business_open) ∧
    (tc = 1 → "business" ∉ cov → get_next_category_focus cov tc = focus_business_value) ∧
    (¬tc = 0 → ¬(tc = 1 ∧ "business" ∉ cov) → tc ≤ 2 → "technical" ∉ cov →
      get_next_category_focus cov tc = focus_technical) ∧
    (¬tc = 0 → ¬(tc = 1 ∧ "business" ∉ cov) → ¬(tc ≤ 2 ∧ "technical" ∉ cov) →
      tc ≤ 3 → "compliance" ∉ cov → get_next_category_focus cov tc = focus_compliance) ∧
    (¬tc = 0 → ¬(tc = 1 ∧ "business" ∉ cov) → ¬(tc ≤ 2 ∧ "technical" ∉ cov) →
      ¬(tc ≤ 3 ∧ "compliance" ∉ cov) → tc ≤ 4 → "ux" ∉ cov →
      get_next_category_focus cov tc = focus_ux) ∧
    (¬tc = 0 → ¬(tc = 1 ∧ "business" ∉ cov) → ¬(tc ≤ 2 ∧ "technical" ∉ cov) →
      ¬(tc ≤ 3 ∧ "compliance" ∉ cov) → ¬(tc ≤ 4 ∧ "ux" ∉ cov) →
      get_next_category_focus cov tc = focus_operational) := by
  refine ⟨fun h0 => ?_, fun h1 hb => ?_, fun hn0 hn1 h2 ht => ?_,
    fun hn0 hn1 hn2 h3 hc => ?_, fun hn0 hn1 hn2 hn3 h4 hu => ?_,
    fun hn0 hn1 hn2 hn3 hn4 => ?_⟩ <;> unfold get_next_category_focus
  · rw [if_pos h0]
  · rw [if_neg (by omega), if_pos ⟨h1, hb⟩]
  · rw [if_neg hn0, if_neg hn1, if_pos ⟨h2, ht⟩]
  · rw [if_neg hn0, if_neg hn1, if_neg hn2, if_pos ⟨h3, hc⟩]
  · rw [if_neg hn0, if_neg hn1, if_neg hn2, if_neg hn3, if_pos ⟨h4, hu⟩]
  · rw [if_neg hn0, if_neg hn1, if_neg hn2, if_neg hn3, if_neg hn4]

/-- Witness for C2 at concrete coverage sets and turn counts. -/
theorem planner_schedule_witness :
    get_next_category_focus ∅ 0 = focus_business_open ∧
    get_next_category_focus {"business", "technical"} 3 = focus_compliance :=
  ⟨(planner_schedule ∅ 0 (by decide)).1 rfl,
   (planner_schedule {"business", "technical"} 3 (by decide)).2.2.2.1
     (by decide) (by decide) (by decide) (by decide) (by decide)⟩

/-- C5: the coverage set is a subset of the fixed five-category set, is
invariant under any permutation of the history, and is deterministic
(recomputing on the same input yields the same set). -/
theorem coverage_set_props (l l' : List (String × String)) (h : l.Perm l') :
    answered_categories l ⊆ five_categories ∧
    answered_categories l = answered_categories l' ∧
    answered_categories l = answered_categories l := by
  refine ⟨?_, ?_, rfl⟩
  · intro x hx
    obtain ⟨p, _, hp⟩ := (mem_answered_categories l x).mp hx
    exact classify_pair_subset p.1 p.2 hp
  · ext x
    simp only [mem_answered_categories]
    constructor
    · rintro ⟨p, hp, hx⟩; exact ⟨p, h.mem_iff.mp hp, hx⟩
    · rintro ⟨p, hp, hx⟩; exact ⟨p, h.mem_iff.mpr hp, hx⟩

/-- Witness for C5 on a concrete two-pair history and its transposition. -/
theorem coverage_set_props_witness :
    answered_categories [("q1", "o problema do cliente"), ("q2", "usa api pix")] ⊆
        five_categories ∧
    answered_categories [("q1", "o problema do cliente"), ("q2", "usa api pix")] =
      answered_categories [("q2", "usa api pix"), ("q1", "o problema do cliente")] ∧
    answered_categories [("q1", "o problema do cliente"), ("q2", "usa api pix")] =
      answered_categories [("q1", "o problema do cliente"), ("q2", "usa api pix")] :=
  coverage_set_props _ _ (by decide)

/-- C4: the repetition guard flags a candidate iff some prior question has,
together with the candidate, two non-empty keyword sets whose overlap ratio
exceeds one half; a candidate reduced to the empty keyword set is never
flagged, and a candidate sharing no keyword with any prior question is never
flagged. -/
theorem repetition_guard_iff (q : String) (prevs : List (String × String)) :
    (is_question_repetitive q prevs = true ↔
      ∃ p ∈ prevs, keywords_of q ≠ [] ∧ keywords_of p.1 ≠ [] ∧
        (keyword_overlap (keywords_of q) (keywords_of p.1) : ℚ) /
          (Nat.min (keywords_of q).length (keywords_of p.1).length : ℚ) > 1 / 2) ∧
    (keywords_of q = [] → is_question_repetitive q prevs = false) ∧
    ((∀ p ∈ prevs, keyword_overlap (keywords_of q) (keywords_of p.1) = 0) →
      is_question_repetitive q prevs = false) := by
  have main : is_question_repetitive q prevs = true ↔
      ∃ p ∈ prevs, keywords_of q ≠ [] ∧ keywords_of p.1 ≠ [] ∧
        (keyword_overlap (keywords_of q) (keywords_of p.1) : ℚ) /
          (Nat.min (keywords_of q).length (keywords_of p.1).length : ℚ) > 1 / 2 := by
    simp only [is_question_repetitive, overlap_exceeds_half, List.any_eq_true,
      Bool.and_eq_true, decide_eq_true_eq]
    constructor
    · rintro ⟨p, hp, ⟨h1, h2⟩, h3⟩
      exact ⟨p, hp, List.length_pos.mp h1, List.length_pos.mp h2, h3⟩
    · rintro ⟨p, hp, h1, h2, h3⟩
      exact ⟨p, hp, ⟨List.length_pos.mpr h1, List.length_pos.mpr h2⟩, h3⟩
  refine ⟨main, fun hq => Bool.eq_false_iff.mpr fun h => ?_,
    fun hz => Bool.eq_false_iff.mpr fun h => ?_⟩
  · obtain ⟨p, _, hne, _, _⟩ := main.mp h
    exact hne hq
  · obtain ⟨p, hp, _, _, hr⟩ := main.mp h
    rw [hz p hp] at hr
    norm_num at hr

/-- Witness for C4: a 3-of-4 keyword overlap is flagged; disjoint keyword
sets are not; a candidate of stopwords and short words only is not. -/
theorem repetition_guard_iff_witness :
    is_question_repetitive "alpha beta gamma delta" [("alpha beta gamma zeta", "r")] = true ∧
    is_question_repetitive "alpha beta" [("gamma delta", "r")] = false ∧
    is_question_repetitive "como para esta e de" [("alpha beta gamma", "r")] = false := by
  refine ⟨?_, ?_, ?_⟩
  · exact (repetition_guard_iff "alpha beta gamma delta" [("alpha beta gamma zeta", "r")]).1.mpr
      ⟨("alpha beta gamma zeta", "r"), by decide, by decide, by decide,
        (ratio_gt_half_iff _ _ (by decide) (by decide)).mpr (by decide)⟩
  · exact (repetition_guard_iff "alpha beta" [("gamma delta", "r")]).2.2 (by decide)
  · exact (repetition_guard_iff "como para esta e de" [("alpha beta gamma", "r")]).2.1 (by decide)

/-- C6 counterexample: upserting an answer under a question already present in
the history overwrites the prior answer and leaves the history's size
unchanged, refuting "the size is the prior size plus one ... including a
current_question identical to a question already present". -/
theorem upsert_existing_key_cex :
    (upsert [("q", "a")] "q" "b").length = [("q", "a")].length ∧
    upsert [("q", "a")] "q" "b" = [("q", "b")] := by
  decide

/-- C6 as amended: upserting under a fresh question grows the history by
exactly one; upserting under a question already present keeps the size and
overwrites the answer. -/
theorem upsert_turn_count (pa : List (String × String)) (k v : String) :
    (k ∉ pa.map Prod.fst → (upsert pa k v).length = pa.length + 1) ∧
    (k ∈ pa.map Prod.fst → (upsert pa k v).length = pa.length ∧ (k, v) ∈ upsert pa k v) := by
  have hany : (pa.any (fun p => p.1 == k)) = true ↔ k ∈ pa.map Prod.fst := by
    simp [List.any_eq_true, List.mem_map]
  constructor
  · intro hk
    rw [upsert, if_neg (fun h => hk (hany.mp h))]
    simp
  · intro hk
    rw [upsert, if_pos (hany.mpr hk)]
    refine ⟨by simp, ?_⟩
    obtain ⟨p, hp, hpk⟩ := List.mem_map.mp hk
    refine List.mem_map.mpr ⟨p, hp, ?_⟩
    simp [hpk]

/-- Witness for C6 as amended, at a fresh key and at an existing key. -/
theorem upsert_turn_count_witness :
    (upsert [("p", "x")] "q" "y").length = [("p", "x")].length + 1 ∧
    (upsert [("p", "x")] "p" "y").length = [("p", "x")].length ∧
    ("p", "y") ∈ upsert [("p", "x")] "p" "y" :=
  ⟨(upsert_turn_count [("p", "x")] "q" "y").1 (by decide),
   (upsert_turn_count [("p", "x")] "p" "y").2 (by decide)⟩

/-- A stakeholder entry with an area outside the valid enumeration, as in the
spec's Scenario 5. -/
def marketing_entry : Stakeholder :=
  { area := "Marketing"
    reason := "Campanha de lançamento"
    priority := "low"
    validation_focus := "Divulgação" }

/-- A stakeholder entry with a valid area, as in the spec's Scenario 5. -/
def compliance_entry : Stakeholder :=
  { area := "Compliance"
    reason := "Validação regulatória"
    priority := "high"
    validation_focus := "Regras BACEN" }

/-- C8: on a successfully parsed generator response, entries with a valid
area are kept and entries with an area outside the enumeration are dropped
(filtering is not fatal); in particular a parsed response holding an invalid
"Marketing" entry next to a valid "Compliance" entry yields only the
"Compliance" entry. -/
theorem stakeholder_area_filter (parsed : List Stakeholder) (ctx : String) :
    (∀ s ∈ parsed, s.area ∈ valid_areas → s ∈ identify_stakeholders (some (some parsed)) ctx) ∧
    (∀ s ∈ parsed, s.area ∉ valid_areas → s ∉ identify_stakeholders (some (some parsed)) ctx) ∧
    identify_stakeholders (some (some [marketing_entry, compliance_entry])) ctx =
      [compliance_entry] := by
  refine ⟨?_, ?_, rfl⟩
  · intro s hs ha
    exact List.mem_filter.mpr ⟨hs, by simpa using ha⟩
  · intro s _ ha hmem
    exact ha (by simpa using (List.mem_filter.mp hmem).2)

/-- C9 counterexample: a successfully parsed response whose only entry has an
invalid area yields the empty stakeholder list — the rule-based fallback is
not invoked (its result always holds the Suporte entry) and the result is not
non-empty. -/
theorem zero_survivors_empty :
    identify_stakeholders (some (some [marketing_entry])) "pix api segurança" = [] ∧
    suporte_fallback ∈ get_fallback_stakeholders "pix api segurança" ∧
    0 < (get_fallback_stakeholders "pix api segurança").length := by
  refine ⟨rfl, by decide, by decide⟩

/-- C9 as amended: the rule-based fallback is used when the stakeholder call
itself fails (over the empty context) or when its text yields no parseable
JSON object (over the feature context) — but not when a parse succeeds with
zero survivors; the fallback is total, always contains the unconditionally
appended Suporte entry, and is never empty. -/
theorem fallback_paths (ctx : String) :
    identify_stakeholders none ctx = get_fallback_stakeholders "" ∧
    identify_stakeholders (some none) ctx = get_fallback_stakeholders ctx ∧
    suporte_fallback ∈ get_fallback_stakeholders ctx ∧
    0 < (get_fallback_stakeholders ctx).length := by
  refine ⟨rfl, rfl, ?_, ?_⟩
  · simp [get_fallback_stakeholders]
  · simp [get_fallback_stakeholders]

lemma ask_none_completes (l : List (String × String)) :
    ask_specification_question l none = "ESPECIFICACAO_COMPLETA" := by
  simp only [ask_specification_question]
  split <;> rfl

lemma strip_ne_empty_of_len {s : String} (h : 5 ≤ (strip_str s).length) :
    strip_str s ≠ "" := by
  intro he
  rw [he] at h
  exact absurd h (by decide)

lemma process_answer_complaint (req : TurnRequest) (g : Option String)
    (st : Option (Option (List Stakeholder))) (d : Option String)
    (hspec : req.spec_id ≠ "") (hq : req.current_question ≠ "")
    (hlen : 5 ≤ (strip_str req.answer).length)
    (hcomp : complaint_detected (strip_str req.answer) = true) :
    process_answer req g st d =
      TurnResponse.completed req.previous_answers.length req.previous_answers
        (identify_stakeholders st (feature_context req.initial_idea req.previous_answers))
        (generate_final_document d) := by
  have hne := strip_ne_empty_of_len hlen
  simp only [process_answer]
  rw [if_neg (by simp [hspec]), if_neg (by simp [hq]), if_neg (by simp [hne]),
    if_neg (by omega), if_pos hcomp]

/-- C3 counterexample: with a valid non-complaint answer and a failing
question-generation call, the turn is not aborted with an error — the handler
returns a normal completed outcome with HTTP status 200, refuting "surfaced
to the caller as a 5xx-equivalent error outcome ... never maps such a failure
to a normal completion". -/
def gen_fail_request : TurnRequest :=
  { spec_id := "spec-1"
    current_question := "Qual o objetivo de negócio?"
    answer := "Reduzir fraudes no login"
    previous_answers := []
    initial_idea := "Reconhecimento facial no login"
    title := "Login Facial" }

/-- C3 counterexample theorem (see `gen_fail_request`). -/
theorem generation_failure_not_error :
    process_answer gen_fail_request none none none =
      TurnResponse.completed 1
        [("Qual o objetivo de negócio?", "Reduzir fraudes no login")]
        (get_fallback_stakeholders "") doc_error_fallback ∧
    status_code (process_answer gen_fail_request none none none) = 200 :=
  ⟨rfl, rfl⟩

/-- C3 as amended: a failed question-generation call is absorbed, not
surfaced: `ask_specification_question` turns it into the completion sentinel
(the blanket `except` of bedrock_client.py lines 96-98), so a validated
non-complaint turn with a failing generator ends as a normal completed
response with status 200 — not as an error, and with no internal retry. -/
theorem generation_failure_absorbed (req : TurnRequest) (pa : List (String × String))
    (st : Option (Option (List Stakeholder))) (d : Option String)
    (hspec : req.spec_id ≠ "") (hq : req.current_question ≠ "")
    (hlen : 5 ≤ (strip_str req.answer).length)
    (hcomp : complaint_detected (strip_str req.answer) = false) :
    ask_specification_question pa none = "ESPECIFICACAO_COMPLETA" ∧
    process_answer req none st d =
      TurnResponse.completed
        (upsert req.previous_answers req.current_question (strip_str req.answer)).length
        (upsert req.previous_answers req.current_question (strip_str req.answer))
        (identify_stakeholders st (feature_context req.initial_idea
          (upsert req.previous_answers req.current_question (strip_str req.answer))))
        (generate_final_document d) ∧
    status_code (process_answer req none st d) = 200 := by
  have hne := strip_ne_empty_of_len hlen
  have hmain : process_answer req none st d =
      TurnResponse.completed
        (upsert req.previous_answers req.current_question (strip_str req.answer)).length
        (upsert req.previous_answers req.current_question (strip_str req.answer))
        (identify_stakeholders st (feature_context req.initial_idea
          (upsert req.previous_answers req.current_question (strip_str req.answer))))
        (generate_final_document d) := by
    simp only [process_answer]
    rw [if_neg (by simp [hspec]), if_neg (by simp [hq]), if_neg (by simp [hne]),
      if_neg (by omega), if_neg (by simp [hcomp]), ask_none_completes,
      if_pos (by decide)]
  exact ⟨ask_none_completes pa, hmain, by rw [hmain]; rfl⟩

/-- A concrete validated non-complaint request for the C3 witness. -/
def growth_request : TurnRequest :=
  { spec_id := "spec-3"
    current_question := "Quais sistemas mudam?"
    answer := "Aumenta a receita"
    previous_answers := [("P1", "R1")]
    initial_idea := "Extrato consolidado"
    title := "Extrato" }

/-- Witness for C3 as amended, at `growth_request`. -/
theorem generation_failure_absorbed_witness :
    ask_specification_question [("P1", "R1")] none = "ESPECIFICACAO_COMPLETA" ∧
    process_answer growth_request none none none =
      TurnResponse.completed
        (upsert [("P1", "R1")] "Quais sistemas mudam?" (strip_str "Aumenta a receita")).length
        (upsert [("P1", "R1")] "Quais sistemas mudam?" (strip_str "Aumenta a receita"))
        (identify_stakeholders none (feature_context "Extrato consolidado"
          (upsert [("P1", "R1")] "Quais sistemas mudam?" (strip_str "Aumenta a receita"))))
        (generate_final_document none) ∧
    status_code (process_answer growth_request none none none) = 200 :=
  generation_failure_absorbed growth_request [("P1", "R1")] none none
    (by decide) (by decide) (by decide) (by decide)

/-- C7: a validated answer containing a complaint phrase short-circuits the
turn to the completed envelope: finalization (stakeholder identification and
document generation) is invoked on the unchanged history, the result does not
depend on the question generator's outcome (the planner and the
question-generation call are bypassed), and the status is 200. -/
theorem complaint_short_circuit (req : TurnRequest) (g g' : Option String)
    (st : Option (Option (List Stakeholder))) (d : Option String)
    (hspec : req.spec_id ≠ "") (hq : req.current_question ≠ "")
    (hlen : 5 ≤ (strip_str req.answer).length)
    (hcomp : complaint_detected (strip_str req.answer) = true) :
    process_answer req g st d =
      TurnResponse.completed req.previous_answers.length req.previous_answers
        (identify_stakeholders st (feature_context req.initial_idea req.previous_answers))
        (generate_final_document d) ∧
    process_answer req g st d = process_answer req g' st d ∧
    status_code (process_answer req g st d) = 200 := by
  have h1 := process_answer_complaint req g st d hspec hq hlen hcomp
  have h2 := process_answer_complaint req g' st d hspec hq hlen hcomp
  exact ⟨h1, h1.trans h2.symm, by rw [h1]; rfl⟩

/-- A concrete complaint-phrase request ("você já perguntou ...") used by the
C7 and C10 witnesses. -/
def complaint_request : TurnRequest :=
  { spec_id := "spec-2"
    current_question := "Qual o fluxo para o operador?"
    answer := "você já perguntou isso antes"
    previous_answers := [("P1", "R1")]
    initial_idea := "PIX agendado para casas de apostas"
    title := "PIX Agendado" }

/-- Witness for C7 at `complaint_request`. -/
theorem complaint_short_circuit_witness :
    process_answer complaint_request (some "Possível nova pergunta?") none none =
      TurnResponse.completed 1 [("P1", "R1")]
        (identify_stakeholders none
          (feature_context "PIX agendado para casas de apostas" [("P1", "R1")]))
        (generate_final_document none) ∧
    process_answer complaint_request (some "Possível nova pergunta?") none none =
      process_answer complaint_request none none none ∧
    status_code
      (process_answer complaint_request (some "Possível nova pergunta?") none none) = 200 :=
  complaint_short_circuit complaint_request (some "Possível nova pergunta?") none none none
    (by decide) (by decide) (by decide) (by decide)

/-- C10: in the complaint-phrase completion path the triggering pair is never
added to the history: the completed envelope's `all_answers` is the incoming
`previous_answers` unchanged and `total_questions` is its size. -/
theorem complaint_preserves_history (req : TurnRequest) (g : Option String)
    (st : Option (Option (List Stakeholder))) (d : Option String)
    (hspec : req.spec_id ≠ "") (hq : req.current_question ≠ "")
    (hlen : 5 ≤ (strip_str req.answer).length)
    (hcomp : complaint_detected (strip_str req.answer) = true) :
    ∃ stks doc, process_answer req g st d =
      TurnResponse.completed req.previous_answers.length req.previous_answers stks doc :=
  ⟨_, _, process_answer_complaint req g st d hspec hq hlen hcomp⟩

/-- Witness for C10 at `complaint_request`. -/
theorem complaint_preserves_history_witness :
    ∃ stks doc, process_answer complaint_request none none none =
      TurnResponse.completed 1 [("P1", "R1")] stks doc :=
  complaint_preserves_history complaint_request none none none
    (by decide) (by decide) (by decide) (by decide)
